import Mathlib

/-
Verification development for the NewBotDB content-distribution system.

The development shallowly embeds the parts of the repository that the
checked claims talk about:

- db.py         : the tenant-scoped job store (tables posts, channels,
                  forward_log, bot_tenants and every public operation on
                  them), modelled as pure functions on a Store value;
- s.py          : the scheduler bot (the scheduling arithmetic of
                  _schedule_bulk, _schedule_batch and _schedule_multiday,
                  and the dispatch pipeline send_to_all_channels /
                  process_due_posts / background_poster);
- forwarder_bot.py : the relay copy engine (_copy_to_one and
                  forward_message).

Conventions. Instants and durations are exact rational numbers of
seconds; a Python timedelta(minutes = m, seconds = s) is 60 * m + s.
Python float arithmetic in the scheduling code is modelled by exact
rational arithmetic. Network sends are modelled by an environment
function that yields, per channel and per attempt, the outcome the
transport library would produce (success, timeout, rate limit with a
cooldown, permanent error, other Telegram error, or an unrelated
exception); the except clauses of the source dispatch on exactly that
classification, which mirrors the telegram.error class hierarchy
(TimedOut is a NetworkError; RetryAfter is a TelegramError but not a
NetworkError). Raised Python exceptions are modelled with Except.
-/

/-! Definitions: shallow embedding of db.py, s.py and forwarder_bot.py. -/

/-- Stable insertion into a list that is sorted according to the boolean
comparator le. Used to model SQL ORDER BY. -/
def insertLe (le : α → α → Bool) (a : α) : List α → List α
  | [] => [a]
  | b :: l => if le a b then a :: b :: l else b :: insertLe le a l

/-- Stable insertion sort by the boolean comparator le; models SQL ORDER BY. -/
def sortLe (le : α → α → Bool) : List α → List α
  | [] => []
  | a :: l => insertLe le a (sortLe le l)

/-- Fuel-driven worker for chunkList; the fuel starts at the length of the
list, which suffices because every step drops at least one element. -/
def chunkListAux (k : Nat) : Nat → List α → List (List α)
  | 0, _ => []
  | _, [] => []
  | fuel + 1, x :: xs =>
      (x :: xs).take (max k 1) :: chunkListAux k fuel ((x :: xs).drop (max k 1))

/-- Splitting a list into consecutive chunks of size k, as done by the
Python loops for i in range(0, len(lst), k): lst[i:i+k] in
send_to_all_channels (k = 20) and forward_message (k = BATCH_SIZE).
Python raises on k = 0 and the source never passes it; the model treats
k = 0 like k = 1. -/
def chunkList (k : Nat) (l : List α) : List (List α) :=
  chunkListAux k l.length l

/-- Python slice l[a:b] for 0 <= a <= b. -/
def sliceIdx (l : List α) (a b : Nat) : List α := (l.drop a).take (b - a)

/-- Row of the posts table (db.py, _SCHEMA_SQL). -/
structure PostRow where
  id : Nat
  bot_id : String
  message : Option String
  media_type : Option String
  media_file_id : Option String
  caption : Option String
  scheduled_time : ℚ
  posted : Bool
  total_channels : Nat
  successful_posts : Nat
  posted_at : Option ℚ
deriving DecidableEq

/-- Row of the channels table (db.py, _SCHEMA_SQL). -/
structure ChannelRow where
  bot_id : String
  channel_id : String
  channel_name : Option String
  added_at : ℚ
  active : Bool
  total_forwards : Nat
  last_forward : Option ℚ
deriving DecidableEq

/-- Row of the forward_log table (db.py, _SCHEMA_SQL). -/
structure FwdRow where
  bot_id : String
  message_id : Int
  msg_type : String
  total_channels : Nat
  successful : Nat
  failed : Nat
  duration_sec : ℚ
  forwarded_at : ℚ
deriving DecidableEq

/-- The shared PostgreSQL database: the four tables of _SCHEMA_SQL plus the
BIGSERIAL sequence backing posts.id. bot_tenants rows are (bot_id, bot_type). -/
structure Store where
  tenants : List (String × String)
  posts : List PostRow
  channels : List ChannelRow
  fwdlog : List FwdRow
  next_post_id : Nat
deriving DecidableEq

/-- Rows of the posts table owned by one tenant (every query in db.py
carries WHERE bot_id = this). -/
def tenant_posts (b : String) (s : Store) : List PostRow :=
  s.posts.filter (fun r => r.bot_id == b)

/-- Rows of the channels table owned by one tenant. -/
def tenant_channels (b : String) (s : Store) : List ChannelRow :=
  s.channels.filter (fun r => r.bot_id == b)

/-- Rows of the forward_log table owned by one tenant. -/
def tenant_fwdlog (b : String) (s : Store) : List FwdRow :=
  s.fwdlog.filter (fun r => r.bot_id == b)

/-- Everything the database holds for one tenant. -/
structure TenantView where
  tenants : List (String × String)
  posts : List PostRow
  channels : List ChannelRow
  fwdlog : List FwdRow
deriving DecidableEq

/-- Projection of the whole store onto one tenant. -/
def tenant_view (b : String) (s : Store) : TenantView :=
  { tenants := s.tenants.filter (fun t => t.1 == b)
    posts := tenant_posts b s
    channels := tenant_channels b s
    fwdlog := tenant_fwdlog b s }

/-- register_tenant (db.py): INSERT INTO bot_tenants ... ON CONFLICT (bot_id)
DO UPDATE SET bot_type = EXCLUDED.bot_type. -/
def register_tenant (b btype : String) (s : Store) : Store :=
  if s.tenants.any (fun t => t.1 == b) then
    { s with tenants := s.tenants.map (fun t => if t.1 == b then (t.1, btype) else t) }
  else
    { s with tenants := s.tenants ++ [(b, btype)] }

/-- channel_add (db.py): INSERT ... ON CONFLICT (bot_id, channel_id) DO UPDATE
SET active = TRUE, channel_name = COALESCE(EXCLUDED.channel_name, old name). -/
def channel_add (b cid : String) (name : Option String) (now : ℚ) (s : Store) : Store :=
  if s.channels.any (fun r => r.bot_id == b && r.channel_id == cid) then
    { s with channels := s.channels.map (fun r =>
        if r.bot_id == b && r.channel_id == cid then
          { r with active := true
                   channel_name := match name with
                     | some v => some v
                     | none => r.channel_name }
        else r) }
  else
    { s with channels := s.channels ++
        [{ bot_id := b, channel_id := cid, channel_name := name, added_at := now,
           active := true, total_forwards := 0, last_forward := none }] }

/-- channel_remove (db.py): UPDATE channels SET active = FALSE WHERE bot_id
AND channel_id; returns rowcount > 0. -/
def channel_remove (b cid : String) (s : Store) : Store × Bool :=
  ({ s with channels := s.channels.map (fun r =>
      if r.bot_id == b && r.channel_id == cid then { r with active := false } else r) },
   (tenant_channels b s).any (fun r => r.channel_id == cid))

/-- channel_list_active (db.py): SELECT channel_id WHERE bot_id AND active
ORDER BY channel_id. -/
def channel_list_active (b : String) (s : Store) : List String :=
  sortLe (fun a c => decide (a < c) || a == c)
    (((tenant_channels b s).filter (fun r => r.active)).map (fun r => r.channel_id))

/-- channel_list_all (db.py): SELECT ... WHERE bot_id ORDER BY added_at DESC. -/
def channel_list_all (b : String) (s : Store) : List ChannelRow :=
  sortLe (fun r1 r2 => decide (r2.added_at ≤ r1.added_at)) (tenant_channels b s)

/-- channel_increment_forward (db.py): UPDATE channels SET total_forwards =
total_forwards + 1, last_forward = NOW() WHERE bot_id AND channel_id. -/
def channel_increment_forward (b cid : String) (now : ℚ) (s : Store) : Store :=
  { s with channels := s.channels.map (fun r =>
      if r.bot_id == b && r.channel_id == cid then
        { r with total_forwards := r.total_forwards + 1, last_forward := some now }
      else r) }

/-- post_insert (db.py): INSERT INTO posts ... RETURNING id; unset columns
take the schema defaults posted = FALSE, successful_posts = 0,
posted_at = NULL. -/
def post_insert (b : String) (sched : ℚ) (total : Nat)
    (msg mtype mfid cap : Option String) (s : Store) : Store × Nat :=
  ({ s with
      posts := s.posts ++
        [{ id := s.next_post_id, bot_id := b, message := msg, media_type := mtype,
           media_file_id := mfid, caption := cap, scheduled_time := sched,
           posted := false, total_channels := total, successful_posts := 0,
           posted_at := none }]
      next_post_id := s.next_post_id + 1 },
   s.next_post_id)

/-- post_get_due (db.py): SELECT * WHERE bot_id AND scheduled_time <= NOW()
AND posted = FALSE ORDER BY scheduled_time LIMIT lim. -/
def post_get_due (b : String) (now : ℚ) (lim : Nat) (s : Store) : List PostRow :=
  (sortLe (fun r1 r2 => decide (r1.scheduled_time ≤ r2.scheduled_time))
    ((tenant_posts b s).filter
      (fun r => decide (r.scheduled_time ≤ now) && !r.posted))).take lim

/-- post_mark_sent (db.py): UPDATE posts SET posted = TRUE, posted_at = NOW(),
successful_posts = succ WHERE id AND bot_id. Note that the UPDATE carries
no posted = FALSE guard. -/
def post_mark_sent (b : String) (pid succ : Nat) (now : ℚ) (s : Store) : Store :=
  { s with posts := s.posts.map (fun r =>
      if r.id == pid && r.bot_id == b then
        { r with posted := true, posted_at := some now, successful_posts := succ }
      else r) }

/-- post_get_pending (db.py): SELECT * WHERE bot_id AND posted = FALSE
ORDER BY scheduled_time. -/
def post_get_pending (b : String) (s : Store) : List PostRow :=
  sortLe (fun r1 r2 => decide (r1.scheduled_time ≤ r2.scheduled_time))
    ((tenant_posts b s).filter (fun r => !r.posted))

/-- post_delete (db.py): DELETE FROM posts WHERE id AND bot_id; returns
rowcount > 0. -/
def post_delete (b : String) (pid : Nat) (s : Store) : Store × Bool :=
  ({ s with posts := s.posts.filter (fun r => !(r.id == pid && r.bot_id == b)) },
   (tenant_posts b s).any (fun r => r.id == pid))

/-- post_delete_pending_all (db.py): DELETE FROM posts WHERE bot_id AND
posted = FALSE; returns rowcount. -/
def post_delete_pending_all (b : String) (s : Store) : Store × Nat :=
  ({ s with posts := s.posts.filter (fun r => !(r.bot_id == b && !r.posted)) },
   ((tenant_posts b s).filter (fun r => !r.posted)).length)

/-- Condition of post_cleanup_old: posted AND posted_at older than the
retention window; a NULL posted_at never compares below the cutoff. -/
def cleanup_old_cond (minutes : Nat) (now : ℚ) (r : PostRow) : Bool :=
  r.posted && (match r.posted_at with
    | some t => decide (t < now - 60 * (minutes : ℚ))
    | none => false)

/-- post_cleanup_old (db.py): DELETE FROM posts WHERE bot_id AND posted AND
posted_at < NOW() - retention minutes; returns rowcount. -/
def post_cleanup_old (b : String) (minutes : Nat) (now : ℚ) (s : Store) : Store × Nat :=
  ({ s with posts := s.posts.filter (fun r => !(r.bot_id == b && cleanup_old_cond minutes now r)) },
   ((tenant_posts b s).filter (cleanup_old_cond minutes now)).length)

/-- post_stats (db.py): the three tenant-filtered COUNT queries plus the
db_size_mb figure. pg_database_size(current_database()) is a storage-level
measurement of the shared database; it reads no table rows and is modelled
as the external parameter dbSizeMb. -/
def post_stats (b : String) (dbSizeMb : ℚ) (s : Store) : Nat × Nat × Nat × ℚ :=
  ((tenant_posts b s).length,
   ((tenant_posts b s).filter (fun r => !r.posted)).length,
   ((tenant_posts b s).filter (fun r => r.posted)).length,
   dbSizeMb)

/-- Comparator for ORDER BY posted_at DESC; PostgreSQL puts NULLs first in
descending order. -/
def postedAtDescLe : Option ℚ → Option ℚ → Bool
  | none, _ => true
  | some _, none => false
  | some x, some y => decide (y ≤ x)

/-- post_get_last (db.py): SELECT * WHERE bot_id AND posted = TRUE ORDER BY
posted_at DESC LIMIT 1. -/
def post_get_last (b : String) (s : Store) : Option PostRow :=
  (sortLe (fun r1 r2 => postedAtDescLe r1.posted_at r2.posted_at)
    ((tenant_posts b s).filter (fun r => r.posted))).head?

/-- fwdlog_insert (db.py): INSERT INTO forward_log with forwarded_at = NOW(). -/
def fwdlog_insert (b : String) (mid : Int) (mtype : String)
    (total succ failcnt : Nat) (dur now : ℚ) (s : Store) : Store :=
  { s with fwdlog := s.fwdlog ++
      [{ bot_id := b, message_id := mid, msg_type := mtype, total_channels := total,
         successful := succ, failed := failcnt, duration_sec := dur, forwarded_at := now }] }

/-- fwdlog_stats (db.py): COUNT, the three COALESCE(SUM(...), 0) aggregates
and MAX(forwarded_at) over the rows of one tenant. -/
def fwdlog_stats (b : String) (s : Store) : Nat × Nat × Nat × Nat × Option ℚ :=
  let rows := tenant_fwdlog b s
  (rows.length,
   (rows.map (fun r => r.total_channels)).sum,
   (rows.map (fun r => r.successful)).sum,
   (rows.map (fun r => r.failed)).sum,
   rows.foldr (fun r m => some (match m with
     | none => r.forwarded_at
     | some x => max x r.forwarded_at)) none)

/-- Deleting a tenant. Modelled from the _SCHEMA_SQL foreign keys: every
posts, channels and forward_log row REFERENCES bot_tenants(bot_id)
ON DELETE CASCADE, so DELETE FROM bot_tenants WHERE bot_id removes exactly
the rows of that tenant in every table. -/
def delete_tenant (b : String) (s : Store) : Store :=
  { tenants := s.tenants.filter (fun t => !(t.1 == b))
    posts := s.posts.filter (fun r => !(r.bot_id == b))
    channels := s.channels.filter (fun r => !(r.bot_id == b))
    fwdlog := s.fwdlog.filter (fun r => !(r.bot_id == b))
    next_post_id := s.next_post_id }

/-- Concrete unsent post of tenant a used in counterexamples. -/
def postRow1 : PostRow :=
  { id := 1, bot_id := "a", message := some "m1", media_type := none,
    media_file_id := none, caption := none, scheduled_time := 0, posted := false,
    total_channels := 1, successful_posts := 0, posted_at := none }

/-- Concrete store holding exactly postRow1. -/
def storeC1 : Store :=
  { tenants := [("a", "scheduler")], posts := [postRow1], channels := [],
    fwdlog := [], next_post_id := 2 }

/-- Interval in minutes between consecutive bulk posts (_schedule_bulk in
s.py: intv = dur / n if n > 1 else 0). -/
def bulk_interval (dur : ℚ) (n : Nat) : ℚ :=
  if 1 < n then dur / n else 0

/-- Scheduled instant, in seconds, of bulk item i (_schedule_bulk in s.py:
t = start + timedelta(minutes = intv * i)). start is in seconds, dur in
minutes. -/
def bulk_time (start dur : ℚ) (n i : Nat) : ℚ :=
  start + 60 * (bulk_interval dur n * i)

/-- Number of batches (_schedule_batch in s.py: nb = (n + bs - 1) // bs). -/
def batch_count (n bs : Nat) : Nat := (n + bs - 1) / bs

/-- Interval in minutes between consecutive batches (_schedule_batch in
s.py: bi = dur / nb if nb > 1 else 0). -/
def batch_interval (dur : ℚ) (nb : Nat) : ℚ :=
  if 1 < nb then dur / nb else 0

/-- Scheduled instant, in seconds, of batch item i (_schedule_batch in s.py:
bn = i // bs; t = start + timedelta(minutes = bi * bn, seconds = (i % bs) * 2)). -/
def batch_time (start dur : ℚ) (bs n i : Nat) : ℚ :=
  start + (60 * (batch_interval dur (batch_count n bs) * ((i / bs : Nat) : ℚ))
    + 2 * ((i % bs : Nat) : ℚ))

/-- Python round() on the exact value: round half to even. The source
computes round(day * n / days) on floats; for every realistic plan size the
float quotient ties exactly when the rational one does, so the rational
model is faithful. -/
def py_round (q : ℚ) : ℤ :=
  if q - ⌊q⌋ < 1 / 2 then ⌊q⌋
  else if 1 / 2 < q - ⌊q⌋ then ⌊q⌋ + 1
  else if ⌊q⌋ % 2 = 0 then ⌊q⌋ else ⌊q⌋ + 1

/-- Day-boundary index of _schedule_multiday: round(day * n / days). -/
def multiday_boundary (n days d : Nat) : ℤ :=
  py_round (((d * n : Nat) : ℚ) / (days : ℚ))

/-- The same boundary as a natural number (the boundaries are nonnegative). -/
def multiday_start_idx (n days d : Nat) : Nat :=
  (multiday_boundary n days d).toNat

/-- Slice of the content list assigned to one day by _schedule_multiday:
posts[round(day * n / days) : round((day + 1) * n / days)]. -/
def multiday_day_posts (posts : List α) (days d : Nat) : List α :=
  sliceIdx posts (multiday_start_idx posts.length days d)
    (multiday_start_idx posts.length days (d + 1))

/-- Input validation of the multi-day flow (handle_message, step
multiday_collect_posts in s.py): a plan with fewer posts than days is
refused with the not-enough-posts error. -/
def multiday_rejected (n days : Nat) : Bool := decide (n < days)

/-- Day count that the multi-day flow derives from the post count and batch
size (handle_message in s.py: days = max(1, (n + bs - 1) // bs)). -/
def multiday_auto_days (n bs : Nat) : Nat := max 1 ((n + bs - 1) / bs)

/-- Outcome of one attempted platform send, classified exactly the way the
except clauses of the source classify telegram.error exceptions: ok is a
normal return; timedOut is TimedOut; netError is any other NetworkError;
rateLimited is RetryAfter with the platform-indicated cooldown in seconds
(a TelegramError that is not a NetworkError); permTgError is a
TelegramError whose text matches the permanent markers of _copy_to_one
(chat not found, bot was kicked, not a member, have no rights, forbidden);
otherTgError is any other TelegramError; unexpected is any non-Telegram
exception. -/
inductive TgOutcome where
  | ok
  | timedOut
  | netError
  | rateLimited (cooldown : ℚ)
  | permTgError
  | otherTgError
  | unexpected
deriving DecidableEq

/-- A Python exception escaping the dispatch code. -/
inductive PyErr where
  | nameError (name : String)
  | uncaught
deriving DecidableEq

/-- One per-channel send of the scheduler broadcaster (_send inside
send_to_all_channels in s.py), driven by the outcome environment for this
channel, one outcome per attempt. remaining counts the loop iterations
still available, starting at max_retries = 5; remaining = 0 is unreachable
from the initial call because the loop body always returns or raises on
its final iteration (the result false there is arbitrary).

The branch structure mirrors the source exactly: success returns the
success dict; TimedOut and NetworkError sleep and retry unless this is the
final attempt, in which case the code logs and then calls
add_to_skip_list(ch_id, minutes=5) - a function that is defined nowhere in
s.py - so the path raises NameError before its return statement; every
TelegramError (which includes RetryAfter, the rate-limit signal) is caught
by the TelegramError arm, which also calls the undefined add_to_skip_list
and therefore raises NameError; any other exception propagates uncaught. -/
def s_send (env : Nat → TgOutcome) : (remaining attempt : Nat) → Except PyErr Bool
  | 0, _ => .ok false
  | r + 1, attempt =>
    match env attempt with
    | .ok => .ok true
    | .timedOut =>
        if 0 < r then s_send env r (attempt + 1)
        else .error (.nameError "add_to_skip_list")
    | .netError =>
        if 0 < r then s_send env r (attempt + 1)
        else .error (.nameError "add_to_skip_list")
    | .rateLimited _ => .error (.nameError "add_to_skip_list")
    | .permTgError => .error (.nameError "add_to_skip_list")
    | .otherTgError => .error (.nameError "add_to_skip_list")
    | .unexpected => .error .uncaught

/-- asyncio.gather over the per-channel sends of one concurrency batch
(send_to_all_channels in s.py calls gather without return_exceptions, so
the first raised exception propagates out of the batch). -/
def s_gather (env : String → Nat → TgOutcome) : List String → Except PyErr (List Bool)
  | [] => .ok []
  | ch :: rest =>
    match s_send (env ch) 5 0 with
    | .error e => .error e
    | .ok v =>
      match s_gather env rest with
      | .error e => .error e
      | .ok vs => .ok (v :: vs)

/-- The batch loop of send_to_all_channels in s.py: concurrency batches of
20 channels, accumulating the successful count. -/
def s_batches_loop (env : String → Nat → TgOutcome) :
    List (List String) → Nat → Except PyErr Nat
  | [], acc => .ok acc
  | bch :: rest, acc =>
    match s_gather env bch with
    | .error e => .error e
    | .ok vs => s_batches_loop env rest (acc + vs.count true)

/-- send_to_all_channels (s.py): send the post to every cached channel in
batches of 20, then unconditionally mark the post sent with the successful
count (db.post_mark_sent) and return that count. The admin notification
block is wrapped in try/except in the source and touches no modelled
state. env gives the transport outcome per post id, channel and attempt. -/
def send_to_all_channels (env : Nat → String → Nat → TgOutcome) (b : String)
    (chans : List String) (post : PostRow) (now : ℚ) (s : Store) :
    Except PyErr (Store × Nat) :=
  match s_batches_loop (env post.id) (chunkList 20 chans) 0 with
  | .error e => .error e
  | .ok n => .ok (post_mark_sent b post.id n now s, n)

/-- The item loop of process_due_posts (s.py): dispatch the due posts one
after the other. The loop body has no try/except, so the first exception
escaping send_to_all_channels aborts the loop; the store reached so far
and the escaped exception are returned. -/
def dispatch_loop (env : Nat → String → Nat → TgOutcome) (b : String)
    (chans : List String) (now : ℚ) : List PostRow → Store → Store × Option PyErr
  | [], s => (s, none)
  | p :: rest, s =>
    match send_to_all_channels env b chans p now s with
    | .error e => (s, some e)
    | .ok (s2, _) => dispatch_loop env b chans now rest s2

/-- process_due_posts (s.py): fetch up to 200 due posts, oldest first, and
dispatch them in order under the posting lock. -/
def process_due_posts (env : Nat → String → Nat → TgOutcome) (b : String)
    (chans : List String) (now : ℚ) (s : Store) : Store × Option PyErr :=
  dispatch_loop env b chans now (post_get_due b now 200 s) s

/-- One tick of background_poster (s.py): the tick body is wrapped in
try/except Exception, so an exception escaping process_due_posts is logged
and dropped and the loop lives on to the next tick; cleanup runs every
second tick (runCleanup) and only when the dispatch pass did not raise,
because the tick counter increment sits after the await in the same try
block. -/
def background_tick (env : Nat → String → Nat → TgOutcome) (b : String)
    (chans : List String) (now : ℚ) (cleanupMinutes : Nat) (runCleanup : Bool)
    (s : Store) : Store :=
  match process_due_posts env b chans now s with
  | (s2, some _) => s2
  | (s2, none) =>
      if runCleanup then (post_cleanup_old b cleanupMinutes now s2).1 else s2

/-- Content kind of an inbound source message, i.e. which of the message
attributes tested by _copy_to_one and forward_message is set: text, the
eleven media kinds, or none of them (other). -/
inductive MsgKind where
  | text
  | photo
  | video
  | document
  | audio
  | voice
  | videoNote
  | sticker
  | animation
  | poll
  | location
  | contact
  | other
deriving DecidableEq

/-- Content-type label computed once per inbound message by forward_message
(type_map): the first matching media attribute, with default label text -
note the default also covers unsupported kinds. -/
def msg_type_label : MsgKind → String
  | .photo => "photo"
  | .video => "video"
  | .document => "document"
  | .audio => "audio"
  | .voice => "voice"
  | .videoNote => "video_note"
  | .sticker => "sticker"
  | .animation => "animation"
  | .poll => "poll"
  | .location => "location"
  | .contact => "contact"
  | .text => "text"
  | .other => "text"

/-- Result of one per-channel copy: the returned flag, the sleeps performed
(in seconds, in order) and how many platform send calls were issued. -/
structure CopyRes where
  success : Bool
  sleeps : List ℚ
  sends : Nat
deriving DecidableEq

/-- One per-channel copy of the relay engine (_copy_to_one in
forwarder_bot.py), driven by the outcome environment, one outcome per
attempt; remaining starts at retries = 2.

Branches, mirroring the source: an unsupported content kind hits the else
arm of the if/elif chain inside the loop - it logs a warning and returns
False without calling any send primitive; success returns True after the
best-effort counter update; RetryAfter sleeps retry_after + 1 seconds and
lets the loop continue (also on the last attempt, after which the loop
ends and the function returns False); TimedOut sleeps 1 second and lets
the loop continue; a TelegramError whose text matches a permanent marker
returns False at once; any other TelegramError (including plain
NetworkError) sleeps 1 second unless this was the final attempt, then
loops; any other exception returns False. Falling out of the loop returns
False (gave up). -/
def copy_to_one_aux (env : Nat → TgOutcome) (kind : MsgKind) :
    (remaining attempt : Nat) → (sleeps : List ℚ) → (sends : Nat) → CopyRes
  | 0, _, sleeps, sends => ⟨false, sleeps.reverse, sends⟩
  | r + 1, attempt, sleeps, sends =>
    if kind = .other then ⟨false, sleeps.reverse, sends⟩
    else
      match env attempt with
      | .ok => ⟨true, sleeps.reverse, sends + 1⟩
      | .rateLimited c =>
          copy_to_one_aux env kind r (attempt + 1) ((c + 1) :: sleeps) (sends + 1)
      | .timedOut =>
          copy_to_one_aux env kind r (attempt + 1) ((1 : ℚ) :: sleeps) (sends + 1)
      | .permTgError => ⟨false, sleeps.reverse, sends + 1⟩
      | .netError =>
          if 0 < r then
            copy_to_one_aux env kind r (attempt + 1) ((1 : ℚ) :: sleeps) (sends + 1)
          else
            copy_to_one_aux env kind r (attempt + 1) sleeps (sends + 1)
      | .otherTgError =>
          if 0 < r then
            copy_to_one_aux env kind r (attempt + 1) ((1 : ℚ) :: sleeps) (sends + 1)
          else
            copy_to_one_aux env kind r (attempt + 1) sleeps (sends + 1)
      | .unexpected => ⟨false, sleeps.reverse, sends + 1⟩

/-- _copy_to_one with its default retries = 2. -/
def copy_to_one (env : Nat → TgOutcome) (kind : MsgKind) : CopyRes :=
  copy_to_one_aux env kind 2 0 [] 0

/-- The batch loop of forward_message (forwarder_bot.py): per concurrency
batch, gather with return_exceptions = True and count results that are
True; successful += ok, failed += len(batch) - ok. -/
def forward_counts (env : String → Nat → TgOutcome) (kind : MsgKind) :
    List (List String) → Nat × Nat → Nat × Nat
  | [], acc => acc
  | bch :: rest, (succ, fl) =>
    let ok := (bch.filter (fun ch => (copy_to_one (env ch) kind).success)).length
    forward_counts env kind rest (succ + ok, fl + (bch.length - ok))

/-- forward_message (forwarder_bot.py): reload the channel list (passed in
as chans), bail out when it is empty, otherwise copy the message to every
channel in concurrency batches of batchSize and return the aggregate
(successful, failed) counts of the dispatch pass - the counts that are
then persisted to forward_log and the runtime stats. -/
def forward_message (env : String → Nat → TgOutcome) (kind : MsgKind)
    (chans : List String) (batchSize : Nat) : Option (Nat × Nat) :=
  if chans.isEmpty then none
  else some (forward_counts env kind (chunkList batchSize chans) (0, 0))

/-- Environment in which every platform send raises a TelegramError (for
instance chat not found). -/
def envPerm : Nat → String → Nat → TgOutcome := fun _ _ _ => .permTgError

/-- Environment in which every send of post 1 raises a TelegramError while
every other send succeeds. -/
def envC2 : Nat → String → Nat → TgOutcome :=
  fun pid _ _ => if pid = 1 then .permTgError else .ok

/-- Second concrete unsent post of tenant a, due after postRow1. -/
def postRow2 : PostRow :=
  { postRow1 with id := 2, scheduled_time := 1 }

/-- Concrete store with two due unsent posts of tenant a. -/
def storeC2 : Store :=
  { tenants := [("a", "scheduler")], posts := [postRow1, postRow2], channels := [],
    fwdlog := [], next_post_id := 3 }

/-- Concrete store with a single due unsent post of tenant a. -/
def storeC10 : Store :=
  { tenants := [("a", "scheduler")], posts := [postRow1], channels := [],
    fwdlog := [], next_post_id := 2 }

/-- Environment in which the first attempt on any channel yields a
rate-limit signal with a 10 second cooldown and every later attempt
succeeds. -/
def envRL10 : String → Nat → TgOutcome :=
  fun _ a => if a = 0 then .rateLimited 10 else .ok

/-- Discriminator for Except results. -/
def is_ok_except : Except ε α → Bool
  | .ok _ => true
  | .error _ => false

/-- Concrete active channel of tenant a. -/
def chanA : ChannelRow :=
  { bot_id := "a", channel_id := "c1", channel_name := none, added_at := 0,
    active := true, total_forwards := 0, last_forward := none }

/-- Concrete unsent post of tenant b. -/
def postRowB : PostRow :=
  { postRow1 with id := 3, bot_id := "b" }

/-- Concrete two-tenant store. -/
def storeW : Store :=
  { tenants := [("a", "scheduler"), ("b", "forwarder")], posts := [postRow1, postRowB],
    channels := [chanA], fwdlog := [], next_post_id := 5 }

/-- Concrete store that agrees with storeW on tenant a but holds nothing of
tenant b. -/
def storeW2 : Store :=
  { tenants := [("a", "scheduler")], posts := [postRow1], channels := [chanA],
    fwdlog := [], next_post_id := 9 }

/-! Theorems: the checked claims and their supporting lemmas. -/

theorem chunkListAux_join (k : Nat) :
    ∀ (fuel : Nat) (l : List α), l.length ≤ fuel → (chunkListAux k fuel l).flatten = l := by
  intro fuel
  induction fuel with
  | zero =>
      intro l hl
      have : l = [] := List.eq_nil_of_length_eq_zero (Nat.le_zero.mp hl)
      subst this; rfl
  | succ fuel ih =>
      intro l hl
      match l with
      | [] => rfl
      | x :: xs =>
          have hk : 0 < max k 1 := by omega
          have hlen : ((x :: xs).drop (max k 1)).length ≤ fuel := by
            simp only [List.length_drop, List.length_cons] at *
            omega
          calc (chunkListAux k (fuel + 1) (x :: xs)).flatten
              = (x :: xs).take (max k 1) ++ (chunkListAux k fuel ((x :: xs).drop (max k 1))).flatten := by
                rfl
            _ = (x :: xs).take (max k 1) ++ (x :: xs).drop (max k 1) := by rw [ih _ hlen]
            _ = x :: xs := List.take_append_drop _ _

/-- Concatenating the chunks gives back the original list. -/
theorem chunkList_join (k : Nat) (l : List α) : (chunkList k l).flatten = l :=
  chunkListAux_join k l.length l (Nat.le_refl _)

theorem take_add_split (m k : Nat) : ∀ (x : List α), x.take (m + k) = x.take m ++ (x.drop m).take k := by
  induction m with
  | zero => intro x; simp
  | succ m ih =>
      intro x
      match x with
      | [] => simp
      | a :: xs =>
          have : m + 1 + k = (m + k) + 1 := by omega
          rw [this]
          simp only [List.take_succ_cons, List.drop_succ_cons, List.cons_append]
          rw [ih xs]

theorem sliceIdx_append (l : List α) (a b c : Nat) (h1 : a ≤ b) (h2 : b ≤ c) :
    sliceIdx l a b ++ sliceIdx l b c = sliceIdx l a c := by
  unfold sliceIdx
  have hsum : c - a = (b - a) + (c - b) := by omega
  have hdrop : a + (b - a) = b := by omega
  rw [hsum, take_add_split, List.drop_drop, hdrop]

/-- C1, counterexample: post_mark_sent is not idempotent. Marking post 1 as
sent at time 100 with count 3 and then again at time 200 with count 7
leaves successful_posts = 7 and posted_at = 200, not the values the first
call set (3 and 100): the UPDATE of db.py has no posted = FALSE guard, so
the second call overwrites both columns. -/
theorem c1_mark_sent_not_idempotent :
    ((post_mark_sent "a" 1 7 200 (post_mark_sent "a" 1 3 100 storeC1)).posts.map
        (fun r => (r.successful_posts, r.posted_at))) = [(7, some 200)]
    ∧ ((7 : Nat), (some 200 : Option ℚ)) ≠ ((3 : Nat), (some 100 : Option ℚ)) := by
  constructor
  · rfl
  · decide

/-- C1, amended: mark-sent is last-writer-wins rather than idempotent. A
second call with the same item id makes the first call irrelevant: the
store after both calls equals the store after the second call alone, so
the sent flag stays TRUE but successful_posts and posted_at take the
second call values, not the first call values. -/
theorem c1_mark_sent_last_writer_wins (b : String) (pid n1 n2 : Nat) (t1 t2 : ℚ) (s : Store) :
    post_mark_sent b pid n2 t2 (post_mark_sent b pid n1 t1 s)
      = post_mark_sent b pid n2 t2 s := by
  unfold post_mark_sent
  simp only [List.map_map]
  congr 1
  refine List.map_congr_left (fun r _ => ?_)
  by_cases h : (r.id == pid && r.bot_id == b) = true
  · simp [Function.comp, h]
  · simp [Function.comp, h]

/-- C6: for a bulk plan of n >= 1 items with start t0 (seconds) and duration
D minutes, when n > 1 item i fires at t0 + i * (D / n) minutes, consecutive
times differ by exactly D / n minutes, and the last time never exceeds
t0 + D; when n = 1 the single item fires exactly at t0. -/
theorem c6_bulk_spacing (t0 D : ℚ) (n : Nat) (hn : 1 ≤ n) (hD : 0 ≤ D) :
    (1 < n → ∀ i : Nat, i < n → bulk_time t0 D n i = t0 + 60 * (D / n * i))
    ∧ (1 < n → ∀ i : Nat, i + 1 < n →
        bulk_time t0 D n (i + 1) - bulk_time t0 D n i = 60 * (D / n))
    ∧ bulk_time t0 D n (n - 1) ≤ t0 + 60 * D
    ∧ (n = 1 → bulk_time t0 D n 0 = t0) := by
  refine ⟨?_, ?_, ?_, ?_⟩
  · intro h i _
    simp [bulk_time, bulk_interval, h]
  · intro h i _
    simp only [bulk_time, bulk_interval, if_pos h]
    push_cast
    ring
  · by_cases h : 1 < n
    · simp only [bulk_time, bulk_interval, if_pos h]
      have hn0 : (0 : ℚ) < n := by positivity
      have hle : ((n - 1 : Nat) : ℚ) ≤ (n : ℚ) := by
        have : ((n - 1 : Nat) : ℚ) = (n : ℚ) - 1 := by
          push_cast [Nat.cast_sub hn]
          ring
        rw [this]; linarith
      have key : D / n * ((n - 1 : Nat) : ℚ) ≤ D := by
        rw [div_mul_eq_mul_div, div_le_iff₀ hn0]
        calc D * ((n - 1 : Nat) : ℚ) ≤ D * (n : ℚ) := by
              exact mul_le_mul_of_nonneg_left hle hD
          _ = D * n := by ring
      linarith
    · have hn1 : n = 1 := by omega
      subst hn1
      simp [bulk_time, bulk_interval]
      linarith
  · intro h
    subst h
    simp [bulk_time, bulk_interval]

/-- C6, witness: the hypotheses hold and the theorem applies at the concrete
bulk plan n = 3, D = 60 minutes, t0 = 0 (scenario with interval 20 min). -/
theorem c6_bulk_spacing_witness :
    ((1 ≤ 3) ∧ ((0 : ℚ) ≤ 60))
    ∧ bulk_time 0 60 3 2 - bulk_time 0 60 3 1 = 60 * (60 / 3)
    ∧ bulk_time 0 60 3 (3 - 1) ≤ 0 + 60 * 60 := by
  refine ⟨by norm_num, ?_, ?_⟩
  · exact (c6_bulk_spacing 0 60 3 (by norm_num) (by norm_num)).2.1 (by norm_num) 1 (by norm_num)
  · exact (c6_bulk_spacing 0 60 3 (by norm_num) (by norm_num)).2.2.1

/-- Helper facts about batch_count: it is at least 1, n fits below
batch_count * bs, and (batch_count - 1) * bs stays below n. -/
theorem batch_count_bounds (n bs : Nat) (hn : 1 ≤ n) (hb : 1 ≤ bs) :
    1 ≤ batch_count n bs ∧ n ≤ batch_count n bs * bs
      ∧ (batch_count n bs - 1) * bs < n := by
  have h1 : batch_count n bs * bs ≤ n + bs - 1 := Nat.div_mul_le_self _ _
  have h2 : n + bs - 1 < batch_count n bs * bs + bs := by
    have hdm := Nat.div_add_mod (n + bs - 1) bs
    have hmod := Nat.mod_lt (n + bs - 1) (show 0 < bs by omega)
    have hcomm : bs * ((n + bs - 1) / bs) = batch_count n bs * bs := by
      rw [batch_count, Nat.mul_comm]
    omega
  have hcpos : 1 ≤ batch_count n bs := by
    by_contra h
    have h0 : batch_count n bs = 0 := by omega
    rw [h0] at h2
    simp at h2
    omega
  have hP2 : (batch_count n bs - 1) * bs = batch_count n bs * bs - bs := by
    rw [Nat.sub_mul, Nat.one_mul]
  refine ⟨hcpos, ?_, ?_⟩
  · omega
  · omega

/-- C5: for every batch plan with n >= 1 items and batch size b >= 1, the
batch count of the code equals the ceiling of n / b, the item at position
i carries batch index i / b which always lies below the batch count, every
batch index below the batch count is inhabited by some item, and (when
there is more than one batch) item i fires at
t0 + (i / b) * (D / batch count) minutes plus a stagger of 2 seconds times
(i mod b). -/
theorem c5_batch_law (t0 D : ℚ) (b n : Nat) (hn : 1 ≤ n) (hb : 1 ≤ b) :
    ((batch_count n b : ℤ) = ⌈(n : ℚ) / (b : ℚ)⌉)
    ∧ (∀ i : Nat, i < n → i / b < batch_count n b)
    ∧ (∀ k : Nat, k < batch_count n b → ∃ i : Nat, i < n ∧ i / b = k)
    ∧ (1 < batch_count n b → ∀ i : Nat, i < n →
        batch_time t0 D b n i
          = t0 + (60 * (D / (batch_count n b : ℚ) * ((i / b : Nat) : ℚ))
              + 2 * ((i % b : Nat) : ℚ))) := by
  obtain ⟨hc1, hc2, hc3⟩ := batch_count_bounds n b hn hb
  have hb0 : (0 : ℚ) < (b : ℚ) := by exact_mod_cast Nat.lt_of_lt_of_le Nat.zero_lt_one hb
  refine ⟨?_, ?_, ?_, ?_⟩
  · symm
    rw [Int.ceil_eq_iff]
    constructor
    · have hcast : (((batch_count n b - 1) * b : Nat) : ℚ) < ((n : Nat) : ℚ) := by
        exact_mod_cast hc3
      push_cast [Nat.cast_sub hc1] at hcast
      push_cast
      rw [lt_div_iff₀ hb0]
      linarith
    · have hcast : ((n : Nat) : ℚ) ≤ ((batch_count n b * b : Nat) : ℚ) := by
        exact_mod_cast hc2
      push_cast at hcast
      push_cast
      rw [div_le_iff₀ hb0]
      linarith
  · intro i hi
    have hc2m : n ≤ b * batch_count n b := by rw [Nat.mul_comm]; exact hc2
    exact Nat.div_lt_of_lt_mul (Nat.lt_of_lt_of_le hi hc2m)
  · intro k hk
    refine ⟨k * b, ?_, ?_⟩
    · have hkk : k ≤ batch_count n b - 1 := by omega
      have hle : k * b ≤ (batch_count n b - 1) * b := Nat.mul_le_mul_right b hkk
      exact Nat.lt_of_le_of_lt hle hc3
    · exact Nat.mul_div_cancel k (by omega)
  · intro hnb i _
    simp [batch_time, batch_interval, if_pos hnb]

/-- C5, witness: the hypotheses hold and the theorem applies at the concrete
batch plan n = 10, b = 3 (so four batches), giving the ceiling identity and
the time of item 7 in batch 2. -/
theorem c5_batch_law_witness :
    ((1 ≤ 10) ∧ (1 ≤ 3))
    ∧ ((batch_count 10 3 : ℤ) = ⌈(10 : ℚ) / (3 : ℚ)⌉)
    ∧ (7 / 3 < batch_count 10 3)
    ∧ batch_time 0 120 3 10 7
        = 0 + (60 * ((120 : ℚ) / (batch_count 10 3 : ℚ) * ((7 / 3 : Nat) : ℚ))
            + 2 * ((7 % 3 : Nat) : ℚ)) := by
  refine ⟨by norm_num, ?_, ?_, ?_⟩
  · exact (c5_batch_law 0 120 3 10 (by norm_num) (by norm_num)).1
  · exact (c5_batch_law 0 120 3 10 (by norm_num) (by norm_num)).2.1 7 (by norm_num)
  · exact (c5_batch_law 0 120 3 10 (by norm_num) (by norm_num)).2.2.2 (by decide) 7 (by norm_num)

/-- C4, counterexample: in the scenario of the claim (10 items, batch size
3, duration 90 minutes, t0 = 0) the code does produce 4 batches, but batch
1 fires 22.5 minutes (1350 seconds) after t0, not 30 minutes (1800
seconds): the code divides the duration by the batch count 4, not by the
number of gaps 3. -/
theorem c4_batch_scenario_counterexample :
    batch_count 10 3 = 4
    ∧ batch_time 0 90 3 10 3 = 1350
    ∧ ((1350 : ℚ) ≠ 30 * 60) := by
  refine ⟨by decide, ?_, by norm_num⟩
  norm_num [batch_time, batch_interval, batch_count]

/-- C4, amended: a batch plan of 10 items with batch size 3 and duration 90
minutes starting at t0 produces exactly 4 batches of sizes (3, 3, 3, 1)
(item i belongs to batch i / 3), and the batch times are t0 + 0,
t0 + 22.5, t0 + 45 and t0 + 67.5 minutes, i.e. spaced by 90 / 4 minutes. -/
theorem c4_batch_scenario (t0 : ℚ) :
    batch_count 10 3 = 4
    ∧ (List.range 10).map (fun i => i / 3) = [0, 0, 0, 1, 1, 1, 2, 2, 2, 3]
    ∧ (List.range 4).map (fun k => batch_time t0 90 3 10 (3 * k))
        = [t0, t0 + 1350, t0 + 2700, t0 + 4050] := by
  refine ⟨by decide, by decide, ?_⟩
  simp [List.range_succ, batch_time, batch_interval, batch_count]
  norm_num

theorem py_round_intCast (m : ℤ) : py_round (m : ℚ) = m := by
  unfold py_round
  rw [Int.floor_intCast]
  norm_num

theorem py_round_ge (q : ℚ) : q - 1 / 2 ≤ (py_round q : ℚ) := by
  unfold py_round
  have h1 : (⌊q⌋ : ℚ) ≤ q := Int.floor_le q
  have h2 : q < (⌊q⌋ : ℚ) + 1 := Int.lt_floor_add_one q
  by_cases ha : q - ⌊q⌋ < 1 / 2
  · rw [if_pos ha]; linarith
  · rw [if_neg ha]
    by_cases hb : 1 / 2 < q - ⌊q⌋
    · rw [if_pos hb]; push_cast; linarith
    · rw [if_neg hb]
      have htie : q - ⌊q⌋ = 1 / 2 := by linarith
      by_cases hc : ⌊q⌋ % 2 = 0
      · rw [if_pos hc]; linarith
      · rw [if_neg hc]; push_cast; linarith

theorem py_round_le (q : ℚ) : (py_round q : ℚ) ≤ q + 1 / 2 := by
  unfold py_round
  have h1 : (⌊q⌋ : ℚ) ≤ q := Int.floor_le q
  by_cases ha : q - ⌊q⌋ < 1 / 2
  · rw [if_pos ha]; linarith
  · rw [if_neg ha]
    by_cases hb : 1 / 2 < q - ⌊q⌋
    · rw [if_pos hb]; push_cast; linarith
    · rw [if_neg hb]
      have htie : q - ⌊q⌋ = 1 / 2 := by linarith
      by_cases hc : ⌊q⌋ % 2 = 0
      · rw [if_pos hc]; linarith
      · rw [if_neg hc]; push_cast; linarith

theorem py_round_nonneg (q : ℚ) (h : 0 ≤ q) : 0 ≤ py_round q := by
  have hf : 0 ≤ ⌊q⌋ := Int.floor_nonneg.mpr h
  unfold py_round
  by_cases ha : q - ⌊q⌋ < 1 / 2
  · rw [if_pos ha]; exact hf
  · rw [if_neg ha]
    by_cases hb : 1 / 2 < q - ⌊q⌋
    · rw [if_pos hb]; omega
    · rw [if_neg hb]
      by_cases hc : ⌊q⌋ % 2 = 0
      · rw [if_pos hc]; exact hf
      · rw [if_neg hc]; omega

theorem multiday_boundary_zero (n days : Nat) : multiday_boundary n days 0 = 0 := by
  unfold multiday_boundary
  norm_num
  exact py_round_intCast 0

theorem multiday_boundary_last (n days : Nat) (hd : 0 < days) :
    multiday_boundary n days days = n := by
  unfold multiday_boundary
  have hdQ : ((days : Nat) : ℚ) ≠ 0 := by positivity
  have harg : (((days * n : Nat) : ℚ) / (days : ℚ)) = ((n : ℤ) : ℚ) := by
    push_cast
    field_simp
  rw [harg, py_round_intCast]

theorem multiday_boundary_nonneg (n days d : Nat) :
    0 ≤ multiday_boundary n days d := by
  unfold multiday_boundary
  apply py_round_nonneg
  positivity

theorem multiday_boundary_strict (n days d : Nat) (hd : 0 < days) (hnd : days ≤ n) :
    multiday_boundary n days d < multiday_boundary n days (d + 1) := by
  have hdQ : (0 : ℚ) < (days : ℚ) := by positivity
  by_cases hdvd : days ∣ n
  · obtain ⟨k, hk⟩ := hdvd
    have hk1 : 1 ≤ k := by
      rcases Nat.eq_zero_or_pos k with h0 | h1
      · subst h0; omega
      · exact h1
    have harg : ∀ e : Nat, (((e * n : Nat) : ℚ) / (days : ℚ)) = (((e * k : Nat) : ℤ) : ℚ) := by
      intro e
      subst hk
      push_cast
      field_simp
      ring
    unfold multiday_boundary
    rw [harg d, harg (d + 1), py_round_intCast, py_round_intCast]
    have hmul : d * k < (d + 1) * k :=
      (Nat.mul_lt_mul_right (by omega : 0 < k)).mpr (by omega)
    exact_mod_cast hmul
  · have hlt : days < n := by
      rcases Nat.lt_or_ge days n with h | h
      · exact h
      · have : days = n := by omega
        subst this
        exact absurd (dvd_refl days) hdvd
    have hgap : (((d + 1) * n : Nat) : ℚ) / (days : ℚ)
        - (((d * n : Nat) : ℚ) / (days : ℚ)) = (n : ℚ) / (days : ℚ) := by
      push_cast
      field_simp
      ring
    have hgap1 : (1 : ℚ) < (n : ℚ) / (days : ℚ) := by
      rw [lt_div_iff₀ hdQ]
      exact_mod_cast by omega
    have hle := py_round_le (((d * n : Nat) : ℚ) / (days : ℚ))
    have hge := py_round_ge ((((d + 1) * n : Nat) : ℚ) / (days : ℚ))
    unfold multiday_boundary
    have : ((py_round (((d * n : Nat) : ℚ) / (days : ℚ)) : ℤ) : ℚ)
        < ((py_round ((((d + 1) * n : Nat) : ℚ) / (days : ℚ)) : ℤ) : ℚ) := by
      linarith
    exact_mod_cast this

theorem multiday_start_idx_strict (n days d : Nat) (hd : 0 < days) (hnd : days ≤ n) :
    multiday_start_idx n days d < multiday_start_idx n days (d + 1) := by
  have h1 := multiday_boundary_nonneg n days d
  have h2 := multiday_boundary_nonneg n days (d + 1)
  have h3 := multiday_boundary_strict n days d hd hnd
  unfold multiday_start_idx
  omega

theorem multiday_start_idx_mono (n days : Nat) (hd : 0 < days) (hnd : days ≤ n) :
    ∀ d e : Nat, d ≤ e → multiday_start_idx n days d ≤ multiday_start_idx n days e := by
  intro d e hde
  induction e with
  | zero =>
      have : d = 0 := by omega
      subst this; exact Nat.le_refl _
  | succ e ih =>
      rcases Nat.lt_or_ge d (e + 1) with h | h
      · have hde2 : d ≤ e := by omega
        exact Nat.le_trans (ih hde2)
          (Nat.le_of_lt (multiday_start_idx_strict n days e hd hnd))
      · have : d = e + 1 := by omega
        subst this; exact Nat.le_refl _

theorem join_slices (l : List α) (c : Nat → Nat) (hmono : ∀ d, c d ≤ c (d + 1)) :
    ∀ k : Nat, ((List.range k).map (fun d => sliceIdx l (c d) (c (d + 1)))).flatten
      = sliceIdx l (c 0) (c k) := by
  have hchain : ∀ k : Nat, c 0 ≤ c k := by
    intro k
    induction k with
    | zero => exact Nat.le_refl _
    | succ k ih => exact Nat.le_trans ih (hmono k)
  intro k
  induction k with
  | zero => simp [sliceIdx]
  | succ k ih =>
      rw [List.range_succ, List.map_append, List.flatten_append]
      simp only [List.map_cons, List.map_nil, List.flatten_cons, List.flatten_nil,
        List.append_nil]
      rw [ih, sliceIdx_append l (c 0) (c k) (c (k + 1)) (hchain k) (hmono k)]

/-- C7: for a multi-day plan of the posts over days many days with
1 <= days <= number of posts, the per-day slices
posts[round(day * n / days) : round((day + 1) * n / days)] concatenate
back to the whole post list in original order (so every item lands in
exactly one day), and no day receives an empty slice. -/
theorem c7_multiday_partition {α : Type} (posts : List α) (days : Nat)
    (h1 : 1 ≤ days) (h2 : days ≤ posts.length) :
    ((List.range days).map (fun d => multiday_day_posts posts days d)).flatten = posts
    ∧ (∀ d : Nat, d < days → multiday_day_posts posts days d ≠ [])
    ∧ (∀ n2 days2 : Nat, n2 < days2 → multiday_rejected n2 days2 = true) := by
  have hd : 0 < days := h1
  have hmono : ∀ d, multiday_start_idx posts.length days d
      ≤ multiday_start_idx posts.length days (d + 1) := by
    intro d
    exact Nat.le_of_lt (multiday_start_idx_strict posts.length days d hd h2)
  refine ⟨?_, ?_, ?_⟩
  · unfold multiday_day_posts
    rw [join_slices posts (fun d => multiday_start_idx posts.length days d) hmono days]
    have hc0 : multiday_start_idx posts.length days 0 = 0 := by
      unfold multiday_start_idx
      rw [multiday_boundary_zero]
      rfl
    have hck : multiday_start_idx posts.length days days = posts.length := by
      unfold multiday_start_idx
      rw [multiday_boundary_last posts.length days hd]
      exact Int.toNat_natCast _
    rw [hc0, hck]
    unfold sliceIdx
    simp
  · intro d hdlt
    have hstrict := multiday_start_idx_strict posts.length days d hd h2
    have hupper : multiday_start_idx posts.length days (d + 1) ≤ posts.length := by
      have := multiday_start_idx_mono posts.length days hd h2 (d + 1) days (by omega)
      have hck : multiday_start_idx posts.length days days = posts.length := by
        unfold multiday_start_idx
        rw [multiday_boundary_last posts.length days hd]
        exact Int.toNat_natCast _
      omega
    unfold multiday_day_posts sliceIdx
    intro hnil
    have hlen := congrArg List.length hnil
    simp only [List.length_take, List.length_drop, List.length_nil] at hlen
    omega
  · intro n2 days2 h
    simp [multiday_rejected, h]

/-- C7, witness: the hypotheses hold and the theorem applies at the concrete
plan of 3 posts over 2 days (boundaries round(0) = 0, round(1.5) = 2 by
half-even rounding, round(3) = 3, so the days receive [0, 1] and [2]), and
4 days for 3 posts is rejected. -/
theorem c7_multiday_partition_witness :
    ((1 ≤ 2) ∧ (2 ≤ ([0, 1, 2] : List Nat).length))
    ∧ ((List.range 2).map (fun d => multiday_day_posts ([0, 1, 2] : List Nat) 2 d)).flatten
        = [0, 1, 2]
    ∧ multiday_day_posts ([0, 1, 2] : List Nat) 2 0 ≠ []
    ∧ multiday_day_posts ([0, 1, 2] : List Nat) 2 1 ≠ []
    ∧ multiday_rejected 3 4 = true := by
  refine ⟨by norm_num,
    (c7_multiday_partition ([0, 1, 2] : List Nat) 2 (by norm_num) (by norm_num)).1,
    (c7_multiday_partition ([0, 1, 2] : List Nat) 2 (by norm_num) (by norm_num)).2.1 0
      (by norm_num),
    (c7_multiday_partition ([0, 1, 2] : List Nat) 2 (by norm_num) (by norm_num)).2.1 1
      (by norm_num),
    (c7_multiday_partition ([0, 1, 2] : List Nat) 2 (by norm_num) (by norm_num)).2.2 3 4
      (by norm_num)⟩

/-- C2, counterexample: both posts 1 and 2 are fetched as due in the same
pass, dispatching post 1 fails (its only channel send raises a
TelegramError, upon which the code calls the undefined add_to_skip_list
and raises NameError), and the pass aborts with that exception leaving the
store untouched: post 2 is NOT dispatched in this pass (it stays unsent),
although its own sends would have succeeded. The loop does not log and
continue to the next due item. -/
theorem c2_tick_abort_counterexample :
    post_get_due "a" 10 200 storeC2 = [postRow1, postRow2]
    ∧ process_due_posts envC2 "a" ["c1"] 10 storeC2
        = (storeC2, some (.nameError "add_to_skip_list"))
    ∧ ((process_due_posts envC2 "a" ["c1"] 10 storeC2).1.posts.filter
        (fun r => r.id == 2)).map (fun r => r.posted) = [false]
    ∧ send_to_all_channels envC2 "a" ["c1"] postRow2 10 storeC2
        = .ok (post_mark_sent "a" 2 1 10 storeC2, 1) := by
  refine ⟨by decide, by decide, by decide, rfl⟩

/-- C2, amended: a failure inside one item dispatch aborts the remainder of
that tick pass - with every send of the first item failing, the item loop
stops at the first item, no later item is dispatched in that pass and the
store is unchanged - while the per-tick try/except wrapper of
background_poster swallows the exception, so the poller itself survives to
the next tick (shown on the concrete two-post store: the tick returns
normally with the store untouched). -/
theorem c2_tick_abort (b c : String) (cs : List String) (p : PostRow)
    (rest : List PostRow) (s : Store) (now : ℚ) :
    dispatch_loop envPerm b (c :: cs) now (p :: rest) s
      = (s, some (.nameError "add_to_skip_list"))
    ∧ background_tick envC2 "a" ["c1"] 10 30 true storeC2 = storeC2 := by
  exact ⟨rfl, by decide⟩

/-- C10, behaviour at the failing input: with one cached channel whose send
raises a TelegramError, the dispatch pass raises NameError (the failure
path calls add_to_skip_list, which is defined nowhere in s.py) BEFORE
reaching db.post_mark_sent, so the item is not marked sent: it stays
unsent, is still returned by the due query afterwards, and will be
dispatched again on the next tick. By contrast the mark-sent call is
unconditional whenever no send raises: with an empty channel cache the
item is marked sent with successful count 0, as the claim describes. -/
theorem c10_mark_sent_skipped_on_failure :
    process_due_posts envPerm "a" ["c1"] 10 storeC10
      = (storeC10, some (.nameError "add_to_skip_list"))
    ∧ post_get_due "a" 10 200 storeC10 = [postRow1]
    ∧ postRow1.posted = false
    ∧ send_to_all_channels envPerm "a" [] postRow1 10 storeC10
        = .ok (post_mark_sent "a" 1 0 10 storeC10, 0) := by
  refine ⟨by decide, by decide, by decide, rfl⟩

/-- C8, counterexample: in the scheduler broadcaster a channel that returns
a rate-limit signal on its first attempt and would succeed on the next is
NOT retried and NOT reported successful: RetryAfter is a TelegramError, so
the except TelegramError arm of _send catches it immediately, and its call
to the undefined add_to_skip_list raises NameError - the pass errors out
instead of sleeping for the cooldown and retrying. -/
theorem c8_rate_limit_counterexample :
    send_to_all_channels (fun _ => envRL10) "a" ["c1"] postRow1 20 storeC10
      = .error (.nameError "add_to_skip_list")
    ∧ is_ok_except
        (send_to_all_channels (fun _ => envRL10) "a" ["c1"] postRow1 20 storeC10)
        = false := by
  exact ⟨rfl, rfl⟩

/-- C8, amended: the claimed behaviour holds in the relay copy engine but
not in the scheduler broadcaster. In _copy_to_one a rate-limit signal with
cooldown c makes the sender sleep c + 1 seconds (the platform-indicated
cooldown plus one, not a fixed backoff) and retry; a channel rate-limited
on its first attempt that succeeds on its second consumes exactly one
retry slot (with only one attempt available it would fail) and the
dispatch pass reports it successful. In the scheduler broadcaster the same
rate-limit signal is caught as a generic TelegramError: no cooldown sleep,
no retry, and the failure path raises NameError through the undefined
add_to_skip_list. -/
theorem c8_rate_limit_behaviour (c : ℚ) :
    copy_to_one (fun a => if a = 0 then .rateLimited c else .ok) .text
      = ⟨true, [c + 1], 2⟩
    ∧ copy_to_one_aux (fun a => if a = 0 then .rateLimited c else .ok) .text 1 0 [] 0
      = ⟨false, [c + 1], 1⟩
    ∧ forward_message (fun _ a => if a = 0 then .rateLimited c else .ok) .text ["c1"] 30
      = some (1, 0)
    ∧ s_send (fun a => if a = 0 then .rateLimited c else .ok) 5 0
      = .error (.nameError "add_to_skip_list") := by
  exact ⟨rfl, rfl, rfl, rfl⟩

/-- C3, counterexample: an inbound message of an unsupported kind copied to
one destination yields the pass counts successful = 0 and failed = 1: the
per-destination copy logs its warning and returns False, and
forward_message counts every non-True result as failed, so the skipped
destination DOES contribute to the failed count (the claim would require
the counts some (0, 0)). -/
theorem c3_unsupported_counted_failed :
    forward_message (fun _ _ => .ok) .other ["c1"] 30 = some (0, 1)
    ∧ (some ((0 : Nat), (1 : Nat)) ≠ some ((0 : Nat), (0 : Nat))) := by
  exact ⟨rfl, by decide⟩

theorem forward_counts_other (env : String → Nat → TgOutcome) :
    ∀ (batches : List (List String)) (a b : Nat),
      forward_counts env .other batches (a, b)
        = (a, b + (batches.map List.length).sum) := by
  intro batches
  induction batches with
  | nil => intro a b; simp [forward_counts]
  | cons bch rest ih =>
      intro a b
      have hfil : bch.filter (fun ch => (copy_to_one (env ch) MsgKind.other).success) = [] := by
        apply List.filter_eq_nil_iff.mpr
        intro x _
        simp [copy_to_one, copy_to_one_aux]
      simp only [forward_counts, hfil, List.length_nil, List.map_cons, List.sum_cons]
      rw [ih]
      simp only [Prod.mk.injEq]
      omega

/-- C3, amended: for an inbound message whose content kind is none of the
supported ones, every destination is skipped - the per-destination copy
issues no platform send, performs no sleep and returns False - and each of
the skipped destinations is counted as a failure: the dispatch pass over a
nonempty channel list reports successful = 0 and failed = the number of
destinations (rather than contributing to neither count). -/
theorem c3_unsupported_skipped_and_failed :
    (∀ env : Nat → TgOutcome, copy_to_one env .other = ⟨false, [], 0⟩)
    ∧ (∀ (env : String → Nat → TgOutcome) (c : String) (cs : List String) (k : Nat),
        forward_message env .other (c :: cs) k = some (0, (c :: cs).length)) := by
  constructor
  · intro env; rfl
  · intro env c cs k
    have hne : (c :: cs).isEmpty = false := rfl
    rw [forward_message, hne]
    simp only [Bool.false_eq_true, if_false]
    rw [forward_counts_other]
    have hsum : ((chunkList k (c :: cs)).map List.length).sum = (c :: cs).length := by
      conv_rhs => rw [← chunkList_join k (c :: cs)]
      rw [List.length_flatten]
    rw [hsum, Nat.zero_add]

theorem filter_map_fix (l : List α) (f : α → α) (p : α → Bool)
    (h1 : ∀ x, p x = true → f x = x) (h2 : ∀ x, p (f x) = p x) :
    (l.map f).filter p = l.filter p := by
  induction l with
  | nil => rfl
  | cons a tl ih =>
      simp only [List.map_cons, List.filter_cons]
      rw [h2 a]
      by_cases hp : p a = true
      · rw [hp, h1 a hp]
        simp only [ih]
      · simp only [Bool.not_eq_true] at hp
        rw [hp]
        simp only [Bool.false_eq_true, if_false, ih]

theorem filter_filter_keep (l : List α) (p keep : α → Bool)
    (h : ∀ x, p x = true → keep x = true) :
    (l.filter keep).filter p = l.filter p := by
  induction l with
  | nil => rfl
  | cons a tl ih =>
      by_cases hk : keep a = true
      · rw [List.filter_cons, if_pos hk, List.filter_cons, List.filter_cons]
        by_cases hp : p a = true
        · rw [if_pos hp, if_pos hp, ih]
        · rw [if_neg hp, if_neg hp, ih]
      · have hp : ¬ p a = true := fun hpa => hk (h a hpa)
        rw [List.filter_cons, if_neg hk, List.filter_cons, if_neg hp, ih]

theorem filter_append_one (l : List α) (p : α → Bool) (x : α) (h : p x = false) :
    (l ++ [x]).filter p = l.filter p := by
  rw [List.filter_append]
  simp [h]

theorem filter_filter_not (l : List α) (q : α → Bool) :
    (l.filter (fun x => !(q x))).filter q = [] := by
  induction l with
  | nil => rfl
  | cons a tl ih =>
      by_cases h : q a = true
      · rw [List.filter_cons, if_neg (by simp [h]), ih]
      · rw [List.filter_cons, if_pos (by simp at h; simp [h]), List.filter_cons,
          if_neg h, ih]

theorem beq_swap_false {x b b2 : String} (hne : b2 ≠ b) (hx : (x == b2) = true) :
    (x == b) = false := by
  have hx2 : x = b2 := eq_of_beq hx
  subst hx2
  exact beq_eq_false_iff_ne.mpr hne

theorem beq_self_other {b b2 : String} (hne : b2 ≠ b) : (b == b2) = false :=
  beq_eq_false_iff_ne.mpr (Ne.symm hne)

/-- C9: tenant isolation of every store operation. Writes acting as tenant
b leave the full view (tenants row, posts, channels, forward_log rows) of
every other tenant b2 unchanged; reads by tenant b return the same result
on any two stores whose b views agree, i.e. they observe nothing outside
the rows of b (the db_size_mb figure of post_stats is a storage-level
measurement, passed in as dbSize, that reads no rows); and deleting tenant
b removes all of its rows in every table while the view of every other
tenant is unchanged. -/
theorem c9_tenant_isolation (b b2 : String) (hne : b2 ≠ b) (s t : Store)
    (hv : tenant_view b s = tenant_view b t)
    (btype cid : String) (name : Option String) (now sched dbSize : ℚ)
    (lim pid succ total minutes failcnt : Nat)
    (msg mtype mfid cap : Option String) (mid : Int) (mtyp : String) (dur : ℚ) :
    tenant_view b2 (register_tenant b btype s) = tenant_view b2 s
    ∧ tenant_view b2 (channel_add b cid name now s) = tenant_view b2 s
    ∧ tenant_view b2 (channel_remove b cid s).1 = tenant_view b2 s
    ∧ tenant_view b2 (channel_increment_forward b cid now s) = tenant_view b2 s
    ∧ tenant_view b2 (post_insert b sched total msg mtype mfid cap s).1 = tenant_view b2 s
    ∧ tenant_view b2 (post_mark_sent b pid succ now s) = tenant_view b2 s
    ∧ tenant_view b2 (post_delete b pid s).1 = tenant_view b2 s
    ∧ tenant_view b2 (post_delete_pending_all b s).1 = tenant_view b2 s
    ∧ tenant_view b2 (post_cleanup_old b minutes now s).1 = tenant_view b2 s
    ∧ tenant_view b2 (fwdlog_insert b mid mtyp total succ failcnt dur now s) = tenant_view b2 s
    ∧ channel_list_active b s = channel_list_active b t
    ∧ channel_list_all b s = channel_list_all b t
    ∧ (channel_remove b cid s).2 = (channel_remove b cid t).2
    ∧ post_get_due b now lim s = post_get_due b now lim t
    ∧ post_get_pending b s = post_get_pending b t
    ∧ (post_delete b pid s).2 = (post_delete b pid t).2
    ∧ (post_delete_pending_all b s).2 = (post_delete_pending_all b t).2
    ∧ (post_cleanup_old b minutes now s).2 = (post_cleanup_old b minutes now t).2
    ∧ post_stats b dbSize s = post_stats b dbSize t
    ∧ post_get_last b s = post_get_last b t
    ∧ fwdlog_stats b s = fwdlog_stats b t
    ∧ tenant_view b (delete_tenant b s) = ⟨[], [], [], []⟩
    ∧ tenant_view b2 (delete_tenant b s) = tenant_view b2 s := by
  have hpostsV : tenant_posts b s = tenant_posts b t := congrArg TenantView.posts hv
  have hchV : tenant_channels b s = tenant_channels b t := congrArg TenantView.channels hv
  have hfwdV : tenant_fwdlog b s = tenant_fwdlog b t := congrArg TenantView.fwdlog hv
  have W1 : tenant_view b2 (register_tenant b btype s) = tenant_view b2 s := by
    unfold register_tenant
    by_cases hany : s.tenants.any (fun tt => tt.1 == b) = true
    · rw [if_pos hany]
      unfold tenant_view tenant_posts tenant_channels tenant_fwdlog
      simp only [TenantView.mk.injEq, and_true, true_and]
      apply filter_map_fix
      · intro x hx
        rw [if_neg (by rw [beq_swap_false hne hx]; exact Bool.false_ne_true)]
      · intro x
        by_cases hc : (x.1 == b) = true
        · rw [if_pos hc]
        · rw [if_neg hc]
    · rw [if_neg hany]
      unfold tenant_view tenant_posts tenant_channels tenant_fwdlog
      simp only [TenantView.mk.injEq, and_true, true_and]
      exact filter_append_one _ _ _ (beq_self_other hne)
  have W2 : tenant_view b2 (channel_add b cid name now s) = tenant_view b2 s := by
    unfold channel_add
    by_cases hany : s.channels.any (fun r => r.bot_id == b && r.channel_id == cid) = true
    · rw [if_pos hany]
      unfold tenant_view tenant_posts tenant_channels tenant_fwdlog
      simp only [TenantView.mk.injEq, and_true, true_and]
      apply filter_map_fix
      · intro x hx
        rw [if_neg (by rw [beq_swap_false hne hx]; simp)]
      · intro x
        by_cases hc : (x.bot_id == b && x.channel_id == cid) = true
        · rw [if_pos hc]
        · rw [if_neg hc]
    · rw [if_neg hany]
      unfold tenant_view tenant_posts tenant_channels tenant_fwdlog
      simp only [TenantView.mk.injEq, and_true, true_and]
      exact filter_append_one _ _ _ (beq_self_other hne)
  have W3 : tenant_view b2 (channel_remove b cid s).1 = tenant_view b2 s := by
    unfold channel_remove tenant_view tenant_posts tenant_channels tenant_fwdlog
    simp only [TenantView.mk.injEq, and_true, true_and]
    apply filter_map_fix
    · intro x hx
      rw [if_neg (by rw [beq_swap_false hne hx]; simp)]
    · intro x
      by_cases hc : (x.bot_id == b && x.channel_id == cid) = true
      · rw [if_pos hc]
      · rw [if_neg hc]
  have W4 : tenant_view b2 (channel_increment_forward b cid now s) = tenant_view b2 s := by
    unfold channel_increment_forward tenant_view tenant_posts tenant_channels tenant_fwdlog
    simp only [TenantView.mk.injEq, and_true, true_and]
    apply filter_map_fix
    · intro x hx
      rw [if_neg (by rw [beq_swap_false hne hx]; simp)]
    · intro x
      by_cases hc : (x.bot_id == b && x.channel_id == cid) = true
      · rw [if_pos hc]
      · rw [if_neg hc]
  have W5 : tenant_view b2 (post_insert b sched total msg mtype mfid cap s).1
      = tenant_view b2 s := by
    unfold post_insert tenant_view tenant_posts tenant_channels tenant_fwdlog
    simp only [TenantView.mk.injEq, and_true, true_and]
    exact filter_append_one _ _ _ (beq_self_other hne)
  have W6 : tenant_view b2 (post_mark_sent b pid succ now s) = tenant_view b2 s := by
    unfold post_mark_sent tenant_view tenant_posts tenant_channels tenant_fwdlog
    simp only [TenantView.mk.injEq, and_true, true_and]
    apply filter_map_fix
    · intro x hx
      rw [if_neg (by rw [beq_swap_false hne hx]; simp)]
    · intro x
      by_cases hc : (x.id == pid && x.bot_id == b) = true
      · rw [if_pos hc]
      · rw [if_neg hc]
  have W7 : tenant_view b2 (post_delete b pid s).1 = tenant_view b2 s := by
    unfold post_delete tenant_view tenant_posts tenant_channels tenant_fwdlog
    simp only [TenantView.mk.injEq, and_true, true_and]
    apply filter_filter_keep
    intro x hx
    rw [beq_swap_false hne hx]
    simp
  have W8 : tenant_view b2 (post_delete_pending_all b s).1 = tenant_view b2 s := by
    unfold post_delete_pending_all tenant_view tenant_posts tenant_channels tenant_fwdlog
    simp only [TenantView.mk.injEq, and_true, true_and]
    apply filter_filter_keep
    intro x hx
    rw [beq_swap_false hne hx]
    simp
  have W9 : tenant_view b2 (post_cleanup_old b minutes now s).1 = tenant_view b2 s := by
    unfold post_cleanup_old tenant_view tenant_posts tenant_channels tenant_fwdlog
    simp only [TenantView.mk.injEq, and_true, true_and]
    apply filter_filter_keep
    intro x hx
    rw [beq_swap_false hne hx]
    simp
  have W10 : tenant_view b2 (fwdlog_insert b mid mtyp total succ failcnt dur now s)
      = tenant_view b2 s := by
    unfold fwdlog_insert tenant_view tenant_posts tenant_channels tenant_fwdlog
    simp only [TenantView.mk.injEq, and_true, true_and]
    exact filter_append_one _ _ _ (beq_self_other hne)
  have R1 : channel_list_active b s = channel_list_active b t := by
    unfold channel_list_active
    rw [hchV]
  have R2 : channel_list_all b s = channel_list_all b t := by
    unfold channel_list_all
    rw [hchV]
  have R3 : (channel_remove b cid s).2 = (channel_remove b cid t).2 := by
    unfold channel_remove
    simp only
    rw [hchV]
  have R4 : post_get_due b now lim s = post_get_due b now lim t := by
    unfold post_get_due
    rw [hpostsV]
  have R5 : post_get_pending b s = post_get_pending b t := by
    unfold post_get_pending
    rw [hpostsV]
  have R6 : (post_delete b pid s).2 = (post_delete b pid t).2 := by
    unfold post_delete
    simp only
    rw [hpostsV]
  have R7 : (post_delete_pending_all b s).2 = (post_delete_pending_all b t).2 := by
    unfold post_delete_pending_all
    simp only
    rw [hpostsV]
  have R8 : (post_cleanup_old b minutes now s).2 = (post_cleanup_old b minutes now t).2 := by
    unfold post_cleanup_old
    simp only
    rw [hpostsV]
  have R9 : post_stats b dbSize s = post_stats b dbSize t := by
    unfold post_stats
    rw [hpostsV]
  have R10 : post_get_last b s = post_get_last b t := by
    unfold post_get_last
    rw [hpostsV]
  have R11 : fwdlog_stats b s = fwdlog_stats b t := by
    unfold fwdlog_stats
    rw [hfwdV]
  have D1 : tenant_view b (delete_tenant b s) = ⟨[], [], [], []⟩ := by
    unfold delete_tenant tenant_view tenant_posts tenant_channels tenant_fwdlog
    simp only [TenantView.mk.injEq]
    exact ⟨filter_filter_not _ _, filter_filter_not _ _, filter_filter_not _ _,
      filter_filter_not _ _⟩
  have D2 : tenant_view b2 (delete_tenant b s) = tenant_view b2 s := by
    unfold delete_tenant tenant_view tenant_posts tenant_channels tenant_fwdlog
    simp only [TenantView.mk.injEq]
    refine ⟨?_, ?_, ?_, ?_⟩ <;>
      (apply filter_filter_keep; intro x hx; rw [beq_swap_false hne hx]; simp)
  exact ⟨W1, W2, W3, W4, W5, W6, W7, W8, W9, W10, R1, R2, R3, R4, R5, R6, R7, R8,
    R9, R10, R11, D1, D2⟩

/-- C9, witness: the hypotheses are satisfiable (distinct tenants a and b,
and two concrete stores with equal a views but different b rows) and
c9_tenant_isolation applies, giving for instance that a channel_add by a
does not change the b view, that channel_list_active for a agrees on both
stores, and that deleting a empties exactly the a view while leaving the
b view unchanged. -/
theorem c9_tenant_isolation_witness :
    (("b" : String) ≠ "a" ∧ tenant_view "a" storeW = tenant_view "a" storeW2)
    ∧ tenant_view "b" (channel_add "a" "c9" none 0 storeW) = tenant_view "b" storeW
    ∧ channel_list_active "a" storeW = channel_list_active "a" storeW2
    ∧ tenant_view "a" (delete_tenant "a" storeW) = ⟨[], [], [], []⟩
    ∧ tenant_view "b" (delete_tenant "a" storeW) = tenant_view "b" storeW := by
  have h := c9_tenant_isolation "a" "b" (by decide) storeW storeW2 (by decide)
    "scheduler" "c9" none 0 0 0 1 1 1 1 1 1 none none none none 1 "text" 0
  exact ⟨⟨by decide, by decide⟩, h.2.1,
    h.2.2.2.2.2.2.2.2.2.2.1,
    h.2.2.2.2.2.2.2.2.2.2.2.2.2.2.2.2.2.2.2.2.2.1,
    h.2.2.2.2.2.2.2.2.2.2.2.2.2.2.2.2.2.2.2.2.2.2⟩
